import Mathlib

set_option maxHeartbeats 1000000

/-- Civil local datetime, modelling the naive Python `datetime`: a calendar-day
index (days since an arbitrary epoch, in the fixed local timezone) plus the
second count within that day.  A real instant has `0 ≤ sec < 86400`;
comparisons go through the absolute second count `toSec`, which agrees with
`datetime` ordering on all real instants. -/
structure DateTime where
  day : Int
  sec : Int
deriving DecidableEq, Repr

/-- Absolute second count denoted by a `DateTime`. -/
def DateTime.toSec (t : DateTime) : Int := t.day * 86400 + t.sec

/-- Models Python `datetime.replace(hour=h, minute=m, second=s, microsecond=0)`:
keeps the calendar day and sets the time of day. -/
def DateTime.replace (t : DateTime) (hour minute second : Int) : DateTime :=
  { day := t.day, sec := hour * 3600 + minute * 60 + second }

/-- Models Python `datetime + timedelta(days=n)`. -/
def DateTime.addDays (t : DateTime) (n : Int) : DateTime :=
  { day := t.day + n, sec := t.sec }

/-- Embeds `calculate_current_day_from_declaration`
(src/mpls_snow_emergency_bot.py lines 82-117), after a successful
`strptime(declaration_date_str, "%B %d, %Y")`: `declaration_date` is the
parsed date at midnight (`sec = 0` for strings the program produces), `now`
is the `datetime.now()` reading.  The boundary comparisons mirror the source
exactly, including the inclusive `<=` on `day3_end` and the absence of any
Day-2 end boundary before `day3_start`. -/
def calculate_current_day_from_declaration (declaration_date : DateTime)
    (now : DateTime) : Option String :=
  let day1_start := declaration_date.replace 21 0 0
  let day2_start := (declaration_date.addDays 1).replace 8 0 0
  let day3_start := (declaration_date.addDays 2).replace 8 0 0
  let day3_end := (declaration_date.addDays 2).replace 20 0 0
  if now.toSec < day1_start.toSec then none
  else if day1_start.toSec ≤ now.toSec ∧ now.toSec < day2_start.toSec then some "1"
  else if day2_start.toSec ≤ now.toSec ∧ now.toSec < day3_start.toSec then some "2"
  else if day3_start.toSec ≤ now.toSec ∧ now.toSec ≤ day3_end.toSec then some "3"
  else none

/-- Case-insensitive character equality, modelling `re.IGNORECASE` and
`str.lower()` on the ASCII inputs the program handles. -/
def lcEq (a b : Char) : Bool := a.toLower == b.toLower

/-- Case-insensitive literal match of a pattern at the head of the input;
on success returns the rest of the input. -/
def matchLitCI : List Char → List Char → Option (List Char)
  | [], cs => some cs
  | _ :: _, [] => none
  | p :: ps, c :: cs => if lcEq p c then matchLitCI ps cs else none

/-- Drops a (possibly empty) run of whitespace, modelling a greedy regex
whitespace-star whose successor token is never whitespace. -/
def skipWs : List Char → List Char
  | [] => []
  | c :: cs => if c.isWhitespace then skipWs cs else c :: cs

/-- Requires at least one whitespace character then drops the whole run,
modelling a regex whitespace-plus whose successor token is never whitespace. -/
def skipWs1 : List Char → Option (List Char)
  | [] => none
  | c :: cs => if c.isWhitespace then some (skipWs cs) else none

/-- Captures a decimal digit at the head of the input. -/
def headDigit : List Char → Option Char
  | [] => none
  | c :: _ => if c.isDigit then some c else none

/-- Tries a pattern matcher at every position left to right, modelling
the leftmost-match rule of `re.search`. -/
def searchFirst {α : Type} (f : List Char → Option α) : List Char → Option α
  | [] => none
  | c :: cs =>
    match f (c :: cs) with
    | some a => some a
    | none => searchFirst f cs

/-- Matcher for the homepage pattern `Snow\s+Emergency\s+Day\s*(\d)`
(lines 194-197) anchored at the current position. -/
def snowEmergencyDayPatAt (cs : List Char) : Option Char := do
  let cs ← matchLitCI "snow".toList cs
  let cs ← skipWs1 cs
  let cs ← matchLitCI "emergency".toList cs
  let cs ← skipWs1 cs
  let cs ← matchLitCI "day".toList cs
  headDigit (skipWs cs)

/-- Matcher for the pattern `Day\s*(\d)` anchored at the current position. -/
def dayDigitPatAt (cs : List Char) : Option Char := do
  let cs ← matchLitCI "day".toList cs
  headDigit (skipWs cs)

/-- Matcher for the snowmpls pattern `Day\s*(1|2|3)` (line 250) anchored at
the current position. -/
def dayOneTwoThreePatAt (cs : List Char) : Option Char := do
  let cs ← matchLitCI "day".toList cs
  match skipWs cs with
  | [] => none
  | c :: _ => if c == '1' || c == '2' || c == '3' then some c else none

/-- Matcher for `month\s+30` where `month` is a literal month token, used by
the declaration-date patterns of lines 301-306 and 352-365. -/
def monthThirtyPatAt (month : String) (cs : List Char) : Option Unit := do
  let cs ← matchLitCI month.toList cs
  let cs ← skipWs1 cs
  let _ ← matchLitCI "30".toList cs
  pure ()

/-- Is the needle a literal character-for-character head of the haystack. -/
def startsWithList : List Char → List Char → Bool
  | [], _ => true
  | _ :: _, [] => false
  | a :: as, b :: bs => a == b && startsWithList as bs

/-- Does the haystack contain the needle as a contiguous substring. -/
def hasSubList (needle : List Char) : List Char → Bool
  | [] => startsWithList needle []
  | c :: cs => startsWithList needle (c :: cs) || hasSubList needle cs

/-- Substring containment on strings, modelling the Python `in` operator on `str`. -/
def containsSub (needle hay : String) : Bool := hasSubList needle.toList hay.toList

/-- Lower-cases a string character by character, modelling the Python
`str.lower()` method on the ASCII text the program handles. -/
def lowerStr (s : String) : String := String.mk (s.toList.map Char.toLower)

/-- Outcome of fetching the Minneapolis homepage: an exception anywhere in the
probe body (transport or parse failure), or an HTTP response with its status
code and raw HTML body. -/
inductive HomepageFetch where
  | failure : HomepageFetch
  | response (status : Nat) (html : String) : HomepageFetch
deriving DecidableEq, Repr

/-- Outcome of fetching snowmpls.com, with the HTML already reduced to the
collaborator-extracted view the probe reads: the `title` element text (absent
when the page has none) and the full body text from `soup.get_text()`. -/
inductive SnowmplsFetch where
  | failure : SnowmplsFetch
  | response (status : Nat) (title : Option String) (bodyText : String) : SnowmplsFetch
deriving DecidableEq, Repr

/-- Result dictionary of a probe, keeping the keys the rest of the cycle
reads: `active`, `source`, `day`.  The inactive dictionary `{"active": False}`
lacks the other keys, so `get` on them yields `None`. -/
structure ProbeDict where
  active : Bool
  source : Option String
  day : Option String
deriving DecidableEq, Repr

/-- Day-number search of `check_minneapolis_homepage` (lines 192-208): the
pattern `Snow\s+Emergency\s+Day\s*(\d)` is tried first, then `Day\s*(\d)`,
each with `re.search` and `re.IGNORECASE`. -/
def find_day_homepage (html : String) : Option String :=
  match searchFirst snowEmergencyDayPatAt html.toList with
  | some d => some (String.mk [d])
  | none =>
    match searchFirst dayDigitPatAt html.toList with
    | some d => some (String.mk [d])
    | none => none

/-- Embeds `check_minneapolis_homepage` (lines 178-230).  The enclosing
`try/except` turns any raised error into `None` (modelled by the `failure`
input); a non-200 status returns `None`; otherwise the page is active exactly
when the lower-cased HTML contains "snow emergency". -/
def check_minneapolis_homepage : HomepageFetch → Option ProbeDict
  | HomepageFetch.failure => none
  | HomepageFetch.response status html =>
    if status ≠ 200 then none
    else
      let day_number := find_day_homepage html
      if containsSub "snow emergency" (lowerStr html) then
        some { active := true, source := some "minneapolis.gov homepage", day := day_number }
      else
        some { active := false, source := none, day := none }

/-- Embeds `check_snowmpls_com` (lines 233-266).  Any raised error returns
`None`; a non-200 status returns `None`; the page is active exactly when a
`title` element exists and its lower-cased text contains "active", in which
case the day is searched in the body text with `Day\s*(1|2|3)`. -/
def check_snowmpls_com : SnowmplsFetch → Option ProbeDict
  | SnowmplsFetch.failure => none
  | SnowmplsFetch.response status title bodyText =>
    if status ≠ 200 then none
    else
      match title with
      | some t =>
        if containsSub "active" (lowerStr t) then
          some { active := true, source := some "snowmpls.com",
                 day := (searchFirst dayOneTwoThreePatAt bodyText.toList).map
                          (fun c => String.mk [c]) }
        else
          some { active := false, source := none, day := none }
      | none => some { active := false, source := none, day := none }

/-- Declaration-date search of the snow-updates branch of
`get_snow_emergency_details` (lines 352-365): the three fixed patterns
`November\s+30(?:,?\s*2025)?`, `Nov\.\s+30(?:,?\s*2025)?` and
`Nov\s+30(?:,?\s*2025)?` are tried in order with `re.IGNORECASE`; the optional
year suffix never affects whether a match exists, and on any match the
hard-coded string "November 30, 2025" is returned. -/
def extract_declaration_date_updates (text : String) : Option String :=
  if (searchFirst (monthThirtyPatAt "November") text.toList).isSome then some "November 30, 2025"
  else if (searchFirst (monthThirtyPatAt "Nov.") text.toList).isSome then some "November 30, 2025"
  else if (searchFirst (monthThirtyPatAt "Nov") text.toList).isSome then some "November 30, 2025"
  else none

/-- Declaration-date search of the announcement branch of
`get_snow_emergency_details` (lines 301-306): the single pattern
`November\s+30` with `re.IGNORECASE`, returning the hard-coded string
"November 30, 2025" on a match. -/
def extract_declaration_date_announcement (text : String) : Option String :=
  if (searchFirst (monthThirtyPatAt "November") text.toList).isSome then some "November 30, 2025"
  else none

/-- Parses a nonempty all-digit string to a number, modelling Python `int()`
on the day strings captured by the `(\d)` regex groups (always one digit);
anything else fails like `int()` raising `ValueError`. -/
def parseNatDigits (s : String) : Option Nat :=
  match s.toList with
  | [] => none
  | cs =>
    if cs.all Char.isDigit then
      some (cs.foldl (fun n c => n * 10 + (c.toNat - 48)) 0)
    else none

/-- Embeds `calculate_declaration_date` (lines 124-170).  Declaration-date
strings produced and consumed by the program (`strftime("%B %d, %Y")` /
`strptime` round trips) are modelled by the calendar day they denote, so the
result is a day index.  A missing or falsy day, or one whose `int()` parse
fails, yields today; day 1 yields today, day 2 yesterday, day 3 two days ago,
any other number today. -/
def calculate_declaration_date (current_day : Option String) (now : DateTime) : Int :=
  match current_day with
  | none => now.day
  | some s =>
    match parseNatDigits s with
    | some 1 => now.day
    | some 2 => now.day - 1
    | some 3 => now.day - 2
    | some _ => now.day
    | none => now.day

/-- Result dictionary of `get_snow_emergency_details`: an optional day string
and an optional declaration-date string, the latter modelled by the calendar
day it denotes. -/
structure DetailsDict where
  day : Option String
  declaration_date : Option Int
deriving DecidableEq, Repr

/-- The persisted `current_status` dictionary (lines 54-60). -/
structure Status where
  active : Bool
  last_check : Option DateTime
  details : Option String
  day : Option String
  source : Option ProbeDict
deriving DecidableEq, Repr

/-- The initial `current_status` value at process start. -/
def initialStatus : Status :=
  { active := false, last_check := none, details := none, day := none, source := none }

/-- External inputs of one check cycle: the two probe results, the details-page
result (consulted only when the cycle finds the emergency active), the single
`datetime.now()` reading of the cycle, the `TEST_MODE` flag and whether the
configured notification channel is reachable (`CHANNEL_ID` set and
`bot.get_channel` non-`None`). -/
structure CheckInputs where
  homepage : Option ProbeDict
  snowmpls : Option ProbeDict
  details : Option DetailsDict
  now : DateTime
  test_mode : Bool
  channel_exists : Bool
deriving DecidableEq, Repr

/-- A probe dictionary counts only when present and active
(`if d and d.get("active")`). -/
def pick_active : Option ProbeDict → Option ProbeDict
  | some d => if d.active then some d else none
  | none => none

/-- Evidence aggregation of lines 482-500: the homepage probe is consulted
first, then snowmpls; the chosen dictionary becomes the `source`. -/
def gather_source (inp : CheckInputs) : Option ProbeDict :=
  match pick_active inp.homepage with
  | some h => some h
  | none => pick_active inp.snowmpls

/-- The `is_active` flag of the cycle. -/
def gatherActive (inp : CheckInputs) : Bool := (gather_source inp).isSome

/-- Day/date resolution of lines 507-560, run when the status changed:
starting from the probe-detected day and the details-page result, fill the
day from the details page, derive a missing date backwards from the day,
derive a missing day forwards from the date, fall back to today for the date,
then recompute the day from the final date, keeping the previous day value
when that recomputation yields `None`.  Returns the final `(final_day,
declared_date)` pair. -/
def resolve_day_and_date (detected_day : Option String) (details : Option DetailsDict)
    (now : DateTime) : Option String × Option Int :=
  let final_day1 :=
    match detected_day, details.bind (fun d => d.day) with
    | none, some d => some d
    | fd, _ => fd
  let declared0 : Option Int := details.bind (fun d => d.declaration_date)
  let declared1 :=
    match final_day1, declared0 with
    | some fd, none => some (calculate_declaration_date (some fd) now)
    | _, d => d
  let final_day2 :=
    match declared1, final_day1 with
    | some dd, none => calculate_current_day_from_declaration ⟨dd, 0⟩ now
    | _, fd => fd
  let declared2 :=
    match declared1 with
    | none => some now.day
    | d => d
  let final_day3 :=
    match declared2 with
    | some dd =>
      match calculate_current_day_from_declaration ⟨dd, 0⟩ now with
      | some rd => some rd
      | none => final_day2
    | none => final_day2
  (final_day3, declared2)

/-- The `status_info` dictionary handed to `create_snow_emergency_embed`
(lines 578-583); the embed renders exactly these fields. -/
structure StatusInfo where
  active : Bool
  source : Option String
  day : Option String
  declared : Option Int
deriving DecidableEq, Repr

/-- A dispatched channel message: whether it carries the `@here` mention and
the embedded status panel. -/
structure Message where
  mention_here : Bool
  embed : StatusInfo
deriving DecidableEq, Repr

/-- Result of one run of the check: the new persisted status, whether the
cycle decided to notify (`status_changed`, the condition gating dispatch),
and the message actually sent, when a channel was reachable. -/
structure CheckResult where
  status : Status
  notify : Bool
  message : Option Message
deriving DecidableEq, Repr

/-- Embeds one run of `check_snow_emergency` (lines 470-596).  The probes
return the given dictionaries; the details page is consulted only when the
evidence is active; `status_changed` compares the stored active flag with the
fresh one; only on a change are the status fields rewritten and a message
dispatched, with `@here` added exactly when active and not `TEST_MODE`; the
`last_check` timestamp is updated on every run. -/
def check_snow_emergency (st : Status) (inp : CheckInputs) : CheckResult :=
  let source := gather_source inp
  let is_active := source.isSome
  let detected_day := source.bind (fun d => d.day)
  let status_changed := st.active != is_active
  if status_changed then
    let details := if is_active then inp.details else none
    let resolved := resolve_day_and_date detected_day details inp.now
    let st' : Status :=
      { active := is_active, last_check := some inp.now, details := st.details,
        day := resolved.1, source := source }
    let msg : Option Message :=
      if inp.channel_exists then
        some { mention_here := is_active && !inp.test_mode,
               embed := { active := is_active,
                          source := match source with
                                    | some p => p.source
                                    | none => some "Minneapolis",
                          day := resolved.1, declared := resolved.2 } }
      else none
    { status := st', notify := true, message := msg }
  else
    { status := { st with last_check := some inp.now }, notify := false, message := none }




/-- Active homepage probe dictionary with no day number, as produced when the
banner is present but no day pattern matches. -/
def c1_probe : ProbeDict :=
  { active := true, source := some "minneapolis.gov homepage", day := none }

/-- Check-cycle inputs during the Day-1 window of a declaration on day
index 0 (Nov 30 declared, now Nov 30 at 22:00): active homepage evidence and
a details page carrying the declaration date. -/
def c1_inputs_day1 : CheckInputs :=
  { homepage := some c1_probe, snowmpls := none,
    details := some { day := none, declaration_date := some 0 },
    now := ⟨0, 79200⟩, test_mode := true, channel_exists := true }

/-- The same evidence re-gathered after the window boundary, at Dec 1 09:00
(day index 1, inside the Day-2 window). -/
def c1_inputs_day2 : CheckInputs :=
  { homepage := some c1_probe, snowmpls := none,
    details := some { day := none, declaration_date := some 0 },
    now := ⟨1, 32400⟩, test_mode := true, channel_exists := true }

/-- Check-cycle inputs ten days after a declaration on day index 0, at 14:00:
stale active evidence whose details page still carries the old date. -/
def c6_inputs : CheckInputs :=
  { homepage := some c1_probe, snowmpls := none,
    details := some { day := none, declaration_date := some 0 },
    now := ⟨10, 50400⟩, test_mode := true, channel_exists := true }

/-- Check-cycle inputs in which both probes failed (both returned None). -/
def c8_inputs : CheckInputs :=
  { homepage := none, snowmpls := none, details := none,
    now := ⟨0, 0⟩, test_mode := true, channel_exists := true }

/-- Check-cycle inputs whose homepage probe reports an inactive page, for a
cycle whose gathered active flag matches an inactive stored status. -/
def c10_inputs : CheckInputs :=
  { homepage := some { active := false, source := none, day := none },
    snowmpls := none, details := none,
    now := ⟨0, 36000⟩, test_mode := true, channel_exists := true }

/-- The stored active flag after a check always equals the gathered flag of
that check: the changed branch writes it and the unchanged branch already had
it. -/
theorem check_active_eq (st : Status) (inp : CheckInputs) :
    (check_snow_emergency st inp).status.active = gatherActive inp := by
  unfold check_snow_emergency gatherActive
  cases hb : st.active != (gather_source inp).isSome
  · simp only [hb, Bool.false_eq_true, if_false]
    simpa using hb
  · simp [hb]

/-- A cycle whose gathered active flag equals the stored one never notifies:
`status_changed` is the sole gate on dispatch. -/
theorem check_notify_false_of_active_eq (st : Status) (inp : CheckInputs)
    (h : st.active = gatherActive inp) :
    (check_snow_emergency st inp).notify = false := by
  unfold check_snow_emergency
  unfold gatherActive at h
  simp [h]

/-- C1: the claim is false on the code.  A declaration on day 0 is detected
during its Day-1 window (first run, which does notify); re-running with
identical active evidence at Dec 1 09:00 — a time inside the Day-2 window, as
the third conjunct shows — produces `notify = false`, because notifications
are gated only on a change of the active flag and no (declaration date,
window) alert key exists. -/
theorem C1_counterexample :
    (check_snow_emergency initialStatus c1_inputs_day1).notify = true
  ∧ (check_snow_emergency (check_snow_emergency initialStatus c1_inputs_day1).status
      c1_inputs_day2).notify = false
  ∧ calculate_current_day_from_declaration ⟨0, 0⟩ c1_inputs_day2.now = some "2" := by
  refine ⟨by decide, by decide, by decide⟩

/-- C1 amended: while a snow emergency stays active across consecutive check
cycles, crossing from one rule-day window into the next does not produce a
notification; the code notifies only when the gathered active flag differs
from the stored one, so any cycle whose gathered flag matches the stored flag
returns `notify = false` whatever the window transition. -/
theorem C1_no_notify_while_active_unchanged (st : Status) (inp : CheckInputs)
    (h : st.active = gatherActive inp) :
    (check_snow_emergency st inp).notify = false :=
  check_notify_false_of_active_eq st inp h

/-- Witness for C1 at a concrete input: an already-active status re-observing
active evidence inside the Day-2 window yields no notification. -/
theorem C1_witness :
    (check_snow_emergency
      { active := true, last_check := none, details := none, day := some "1",
        source := some c1_probe } c1_inputs_day2).notify = false :=
  C1_no_notify_while_active_unchanged
    { active := true, last_check := none, details := none, day := some "1",
      source := some c1_probe } c1_inputs_day2 (by decide)

/-- C2: for every declaration date, every instant of the gap from one day
after the declaration at 20:00 up to two days after at 08:00 is answered with
Day "2", not `None`: the code bounds Day 2 by `day3_start` instead of the
20:00 end its own docstring and comments state, so the gap claimed (and
documented) as having no rule day reports Day 2 throughout; sampled here at
the gap start, at 21:00 inside the gap, and one second before the gap end. -/
theorem C2_day2_returned_in_gap (d : DateTime) :
    calculate_current_day_from_declaration d ((d.addDays 1).replace 20 0 0) = some "2"
  ∧ calculate_current_day_from_declaration d ((d.addDays 1).replace 21 0 0) = some "2"
  ∧ calculate_current_day_from_declaration d ((d.addDays 2).replace 7 59 59) = some "2" := by
  simp only [calculate_current_day_from_declaration, DateTime.replace, DateTime.addDays,
    DateTime.toSec]
  refine ⟨?_, ?_, ?_⟩ <;> (split_ifs <;> first | rfl | omega)

/-- C3: the claim is false on the code.  For the declaration on day index 0,
the instant exactly two days later at 20:00:00 is answered with Day "3", not
`None`: the Day-3 end comparison uses an inclusive bound. -/
theorem C3_counterexample :
    calculate_current_day_from_declaration ⟨0, 0⟩ ⟨2, 72000⟩ = some "3"
  ∧ calculate_current_day_from_declaration ⟨0, 0⟩ ⟨2, 72000⟩ ≠ none := by
  refine ⟨by decide, by decide⟩

/-- C3 amended: for every declaration date, the computation at two days later
20:00:00 exactly returns Day 3 (the Day-3 end bound is inclusive, unlike the
half-open convention of the other boundaries), at 19:59:59 returns Day 3, and
returns `None` only strictly after 20:00:00, sampled at 20:00:01. -/
theorem C3_day3_end_inclusive (d : DateTime) :
    calculate_current_day_from_declaration d ((d.addDays 2).replace 20 0 0) = some "3"
  ∧ calculate_current_day_from_declaration d ((d.addDays 2).replace 19 59 59) = some "3"
  ∧ calculate_current_day_from_declaration d ((d.addDays 2).replace 20 0 1) = none := by
  simp only [calculate_current_day_from_declaration, DateTime.replace, DateTime.addDays,
    DateTime.toSec]
  refine ⟨?_, ?_, ?_⟩ <;> (split_ifs <;> first | rfl | omega)

/-- C4: the claim is false on the code.  At 14:00 on the declaration date
(declaration day index 0) the computation returns `None` — the very same
value returned long after the cycle has ended (sampled three days later) — so
no distinguished DECLARED_PENDING value exists. -/
theorem C4_counterexample :
    calculate_current_day_from_declaration ⟨0, 0⟩ ⟨0, 50400⟩ = none
  ∧ calculate_current_day_from_declaration ⟨0, 0⟩ ⟨3, 50400⟩ = none := by
  refine ⟨by decide, by decide⟩

/-- C4 amended: for every declaration date and every instant strictly after
the declaration midnight and strictly before 21:00 that day, the computation
returns `None`, indistinguishable from the no-window answer; exactly at 21:00
the result flips to Day 1 (start boundary inclusive). -/
theorem C4_pending_interval_returns_none (d now : DateTime) (_h0 : d.sec = 0)
    (_h1 : d.toSec < now.toSec) (h2 : now.toSec < (d.replace 21 0 0).toSec) :
    calculate_current_day_from_declaration d now = none
  ∧ calculate_current_day_from_declaration d (d.replace 21 0 0) = some "1" := by
  simp only [DateTime.toSec, DateTime.replace] at h2
  simp only [calculate_current_day_from_declaration, DateTime.replace, DateTime.addDays,
    DateTime.toSec]
  constructor <;> (split_ifs <;> first | rfl | omega)

/-- Witness for C4 at a concrete input: declaration day 0, now that day at
01:00. -/
theorem C4_witness :
    calculate_current_day_from_declaration ⟨0, 0⟩ ⟨0, 3600⟩ = none
  ∧ calculate_current_day_from_declaration ⟨0, 0⟩ (DateTime.replace ⟨0, 0⟩ 21 0 0) = some "1" :=
  C4_pending_interval_returns_none ⟨0, 0⟩ ⟨0, 3600⟩ (by decide) (by decide) (by decide)

/-- C5: the claim is false on the code.  The declaration-date extraction of
both details-page branches matches only the literal November 30 and never
consults a reference instant, so the fragment "Dec. 30" (claimed to yield
2025-12-30 under the year-rollover rule) and the fragment "Jan 2" (claimed to
yield 2026-01-02) produce no date at all. -/
theorem C5_counterexample :
    extract_declaration_date_updates "Dec. 30" = none
  ∧ extract_declaration_date_updates "Jan 2" = none
  ∧ extract_declaration_date_announcement "Dec. 30" = none := by
  refine ⟨by decide, by decide, by decide⟩

/-- C5 amended: date extraction recognises only the fixed patterns November
30, Nov. 30 and Nov 30 (case-insensitively) and on any match returns the
hard-coded string "November 30, 2025" regardless of any year written in the
text or of the reference instant (none is consulted); all other month/day
fragments yield no date, so no year-rollover rule exists. -/
theorem C5_extraction_hardcoded_to_november30 :
    extract_declaration_date_updates "November 30" = some "November 30, 2025"
  ∧ extract_declaration_date_updates "Nov. 30" = some "November 30, 2025"
  ∧ extract_declaration_date_updates "nov 30" = some "November 30, 2025"
  ∧ extract_declaration_date_updates "November 30, 2019" = some "November 30, 2025"
  ∧ extract_declaration_date_updates "October 15" = none
  ∧ extract_declaration_date_announcement "November 30" = some "November 30, 2025"
  ∧ extract_declaration_date_announcement "Jan 2" = none := by
  refine ⟨by decide, by decide, by decide, by decide, by decide, by decide, by decide⟩

/-- C6: the claim is false on the code.  Ten days after a declaration on day
index 0, with fresh active evidence whose details still carry the stale date,
the dispatched message reports the stale declaration date 0 — not today (day
index 10) — and the stored day stays `None`: no replacement with today
happens when the stale date yields no window. -/
theorem C6_counterexample :
    (check_snow_emergency initialStatus c6_inputs).status.day = none
  ∧ (check_snow_emergency initialStatus c6_inputs).message
      = some { mention_here := false,
               embed := { active := true, source := some "minneapolis.gov homepage",
                          day := none, declared := some 0 } } := by
  refine ⟨by decide, by decide⟩

/-- C6 amended: when evidence is active, the candidate declaration date comes
from the details page and yields window `None`, the resolution step keeps the
stale candidate unchanged and leaves the day unresolved (log only); the
candidate is never replaced by today — the today fallback applies only when
no declaration date was found at all. -/
theorem C6_stale_candidate_kept (dd : Int) (now : DateTime)
    (h : calculate_current_day_from_declaration ⟨dd, 0⟩ now = none) :
    resolve_day_and_date none (some { day := none, declaration_date := some dd }) now
      = (none, some dd) := by
  simp [resolve_day_and_date, h]

/-- Witness for C6 at a concrete input: stale date 0, now ten days later at
14:00. -/
theorem C6_witness :
    resolve_day_and_date none (some { day := none, declaration_date := some 0 }) ⟨10, 50400⟩
      = (none, some 0) :=
  C6_stale_candidate_kept 0 ⟨10, 50400⟩ (by decide)

/-- C7: running the check twice in a row with identical inputs (same evidence
and a now that has crossed no boundary, here literally the same instant)
yields `notify = false` on the second run: the first run leaves the stored
active flag equal to the gathered one, so the second sees no status change. -/
theorem C7_second_run_never_notifies (st : Status) (inp : CheckInputs) :
    (check_snow_emergency (check_snow_emergency st inp).status inp).notify = false :=
  check_notify_false_of_active_eq _ inp (check_active_eq st inp)

/-- C8: a probe hit by a transport or parse failure returns `None` instead of
raising (the whole probe body sits in a try/except), and a cycle in which
both probes returned `None` gathers `active = false` and stores an inactive
status. -/
theorem C8_probe_failures_absorbed :
    check_minneapolis_homepage HomepageFetch.failure = none
  ∧ check_snowmpls_com SnowmplsFetch.failure = none
  ∧ ∀ (st : Status) (inp : CheckInputs), inp.homepage = none → inp.snowmpls = none →
      gatherActive inp = false ∧ (check_snow_emergency st inp).status.active = false := by
  refine ⟨rfl, rfl, ?_⟩
  intro st inp h1 h2
  have hg : gather_source inp = none := by simp [gather_source, pick_active, h1, h2]
  have ha : gatherActive inp = false := by simp [gatherActive, hg]
  exact ⟨ha, by rw [check_active_eq]; exact ha⟩

/-- Witness for C8 at a concrete input: both probe results absent. -/
theorem C8_witness :
    gatherActive c8_inputs = false
  ∧ (check_snow_emergency initialStatus c8_inputs).status.active = false :=
  C8_probe_failures_absorbed.2.2 initialStatus c8_inputs rfl rfl

/-- C9: two check cycles identical except for the TEST_MODE flag produce the
same persisted status and the same notify decision, and their dispatched
messages carry the same embedded panel; TEST_MODE can only change the
mention flag of the message. -/
theorem C9_test_mode_noninterference (st : Status) (inp : CheckInputs) (tm1 tm2 : Bool) :
    (check_snow_emergency st { inp with test_mode := tm1 }).status
      = (check_snow_emergency st { inp with test_mode := tm2 }).status
  ∧ (check_snow_emergency st { inp with test_mode := tm1 }).notify
      = (check_snow_emergency st { inp with test_mode := tm2 }).notify
  ∧ ((check_snow_emergency st { inp with test_mode := tm1 }).message).map Message.embed
      = ((check_snow_emergency st { inp with test_mode := tm2 }).message).map Message.embed := by
  obtain ⟨hp, sm, dt, nw, tm, ch⟩ := inp
  unfold check_snow_emergency
  cases hb : st.active != (gather_source ⟨hp, sm, dt, nw, tm, ch⟩).isSome
  · simp only [gather_source, pick_active] at hb ⊢
    simp [hb]
  · simp only [gather_source, pick_active] at hb ⊢
    simp [hb]

/-- C10: a check cycle whose gathered active flag equals the stored one
leaves the active, day, source and details fields of the persisted status
unchanged and updates only the last-check timestamp. -/
theorem C10_no_change_frame (st : Status) (inp : CheckInputs)
    (h : st.active = gatherActive inp) :
    (check_snow_emergency st inp).status.active = st.active
  ∧ (check_snow_emergency st inp).status.day = st.day
  ∧ (check_snow_emergency st inp).status.source = st.source
  ∧ (check_snow_emergency st inp).status.details = st.details
  ∧ (check_snow_emergency st inp).status.last_check = some inp.now := by
  unfold check_snow_emergency
  unfold gatherActive at h
  simp [h]

/-- Witness for C10 at a concrete input: an inactive stored status observing
an inactive homepage page. -/
theorem C10_witness :
    (check_snow_emergency initialStatus c10_inputs).status.active = initialStatus.active
  ∧ (check_snow_emergency initialStatus c10_inputs).status.day = initialStatus.day
  ∧ (check_snow_emergency initialStatus c10_inputs).status.source = initialStatus.source
  ∧ (check_snow_emergency initialStatus c10_inputs).status.details = initialStatus.details
  ∧ (check_snow_emergency initialStatus c10_inputs).status.last_check = some c10_inputs.now :=
  C10_no_change_frame initialStatus c10_inputs (by decide)
